import Mathlib

/-!
Verification of the webrepl session-scoped execution engine.

This file gives a shallow embedding, in Lean 4, of the parts of the
repository that the specification's claims speak about:

* the Session Registry (src/backend/session-manager/main.py), modelled as
  pure state-passing functions over a list of session rows;
* the in-process Python execution backend (src/backend/python/main.py),
  with guest-code execution abstracted as expression/statement outcomes
  and pickling abstracted as codec parameters;
* the command-execution backends (src/backend/bash/main.py and
  src/backend/perl/main.py), with the subprocess abstracted as its
  observable result.

Each handler that can raise an HTTPException is modelled as a function
returning a pair of an `Except HttpErr` result and the database state
after the request: a raised exception skips the commit, so on the error
paths the returned state is the input state.
-/

namespace WebRepl

/-- Timestamps (datetime.utcnow() values) are modelled as abstract naturals
supplied by the caller as a `now` parameter. -/
abbrev Timestamp := Nat

/-- A terminal history entry (TerminalEntry in session-manager/main.py).
The handler stores the timestamp as a string, so it is a string here. -/
structure TerminalEntry where
  id : String
  type : String
  content : String
  timestamp : String
deriving DecidableEq, Repr

/-- The environment state returned by the registry's GET environment
endpoint (EnvironmentState in session-manager/main.py). -/
structure EnvironmentState where
  language : String
  serialized_data : Option String
  last_updated : Timestamp
deriving DecidableEq, Repr

/-- One row of the sessions table (SessionModel in database.py). -/
structure SessionModel where
  id : String
  name : String
  language : String
  created_at : Timestamp
  last_accessed : Timestamp
  execution_count : Nat
  history : List TerminalEntry
  environment_data : Option String
  environment_language : Option String
  environment_updated : Option Timestamp
deriving DecidableEq, Repr

/-- The registry database: the list of session rows. -/
abbrev RegistryDB := List SessionModel

/-- An HTTPException with status code and detail string. -/
structure HttpErr where
  status : Nat
  detail : String
deriving DecidableEq, Repr

/-- The body of the environment-update PUT request
(UpdateEnvironmentRequest in session-manager/main.py). -/
structure UpdateEnvironmentRequest where
  language : String
  serialized_data : Option String
deriving DecidableEq, Repr

namespace SessionManager

/-- db.query(SessionModel).filter(SessionModel.id == session_id).first():
the first row whose id matches. -/
def findSession : RegistryDB → String → Option SessionModel
  | [], _ => none
  | s :: rest, sid => if s.id = sid then some s else findSession rest sid

/-- Mutating the rows whose id is `sid` and committing (ids are unique in
the table, so this coincides with mutating the first match). -/
def updateSession : RegistryDB → String → (SessionModel → SessionModel) → RegistryDB
  | [], _, _ => []
  | s :: rest, sid, f => (if s.id = sid then f s else s) :: updateSession rest sid f

/-- The session row auto-created by update_session_activity for an absent
session id ("Session N+1", execution count zero, empty history). -/
def autoCreated (sid lang : String) (now : Timestamp) (db : RegistryDB) : SessionModel :=
  { id := sid
    name := "Session " ++ toString (db.length + 1)
    language := lang
    created_at := now
    last_accessed := now
    execution_count := 0
    history := []
    environment_data := none
    environment_language := none
    environment_updated := none }

/-- PUT /sessions/\x7bsession_id\x7d/activity (update_session_activity):
absent session rows are auto-created with the given language; a language
mismatch raises 400 before any mutation; otherwise the execution count is
incremented and last-accessed refreshed. -/
def update_session_activity (sid lang : String) (now : Timestamp) (db : RegistryDB) :
    Except HttpErr String × RegistryDB :=
  match findSession db sid with
  | none =>
      (.ok "Session activity updated", db ++ [autoCreated sid lang now db])
  | some s =>
      if s.language ≠ lang then
        (.error ⟨400, "Session " ++ sid ++ " is configured for " ++ s.language ++
                      ", cannot execute " ++ lang ++ " code"⟩, db)
      else
        (.ok "Session activity updated",
         updateSession db sid (fun t =>
           { t with last_accessed := now, execution_count := t.execution_count + 1 }))

/-- GET /sessions/\x7bsession_id\x7d (get_session): 404 on an absent
session; otherwise refreshes last-accessed, commits, and returns the row. -/
def get_session (sid : String) (now : Timestamp) (db : RegistryDB) :
    Except HttpErr SessionModel × RegistryDB :=
  match findSession db sid with
  | none => (.error ⟨404, "Session not found"⟩, db)
  | some s =>
      (.ok { s with last_accessed := now },
       updateSession db sid (fun t => { t with last_accessed := now }))

/-- POST /sessions/\x7bsession_id\x7d/history (add_history_entry): the new
history is a fresh list, the old one with the entry appended; the returned
count is the length of the new list. -/
def add_history_entry (sid : String) (e : TerminalEntry) (now : Timestamp)
    (db : RegistryDB) : Except HttpErr Nat × RegistryDB :=
  match findSession db sid with
  | none => (.error ⟨404, "Session not found"⟩, db)
  | some s =>
      (.ok (s.history ++ [e]).length,
       updateSession db sid (fun t =>
         { t with history := t.history ++ [e], last_accessed := now }))

/-- A sequence of appendHistory calls, collecting the returned counts;
stops at the first failure. -/
def appendHistoryN (sid : String) (now : Timestamp) :
    List TerminalEntry → RegistryDB → Except HttpErr (List Nat) × RegistryDB
  | [], db => (.ok [], db)
  | e :: es, db =>
      match add_history_entry sid e now db with
      | (.error err, db') => (.error err, db')
      | (.ok n, db') =>
          match appendHistoryN sid now es db' with
          | (.error err, db'') => (.error err, db'')
          | (.ok ns, db'') => (.ok (n :: ns), db'')

/-- GET /sessions/\x7bsession_id\x7d/history (get_session_history): 404 on
an absent session; otherwise refreshes last-accessed, commits, and returns
the history with its count. -/
def get_session_history (sid : String) (now : Timestamp) (db : RegistryDB) :
    Except HttpErr (List TerminalEntry × Nat) × RegistryDB :=
  match findSession db sid with
  | none => (.error ⟨404, "Session not found"⟩, db)
  | some s =>
      (.ok (s.history, s.history.length),
       updateSession db sid (fun t => { t with last_accessed := now }))

/-- The environment view computed by get_session_environment after the
last-accessed commit: Python truthiness makes environment_data falsy when
it is absent OR the empty string, and then no environment is reported. -/
def environmentView (s : SessionModel) : Option EnvironmentState :=
  match s.environment_data with
  | none => none
  | some d =>
      if d = "" then none
      else some { language := s.environment_language.getD ""
                  serialized_data := some d
                  last_updated := s.environment_updated.getD 0 }

/-- GET /sessions/\x7bsession_id\x7d/environment (get_session_environment):
404 on an absent session; refreshes last-accessed and commits; then returns
the environment view of the row. -/
def get_session_environment (sid : String) (now : Timestamp) (db : RegistryDB) :
    Except HttpErr (Option EnvironmentState) × RegistryDB :=
  match findSession db sid with
  | none => (.error ⟨404, "Session not found"⟩, db)
  | some s =>
      (.ok (environmentView s),
       updateSession db sid (fun t => { t with last_accessed := now }))

/-- PUT /sessions/\x7bsession_id\x7d/environment (update_session_environment):
full overwrite of the stored environment payload, language tag and
update/last-accessed timestamps. -/
def update_session_environment (sid : String) (req : UpdateEnvironmentRequest)
    (now : Timestamp) (db : RegistryDB) : Except HttpErr String × RegistryDB :=
  match findSession db sid with
  | none => (.error ⟨404, "Session not found"⟩, db)
  | some _ =>
      (.ok "Environment state updated",
       updateSession db sid (fun t =>
         { t with environment_data := req.serialized_data
                  environment_language := some req.language
                  environment_updated := some now
                  last_accessed := now }))

/-- DELETE /sessions/\x7bsession_id\x7d/environment
(clear_session_environment). -/
def clear_session_environment (sid : String) (now : Timestamp) (db : RegistryDB) :
    Except HttpErr String × RegistryDB :=
  match findSession db sid with
  | none => (.error ⟨404, "Session not found"⟩, db)
  | some _ =>
      (.ok "Environment state cleared",
       updateSession db sid (fun t =>
         { t with environment_data := none
                  environment_language := none
                  environment_updated := none
                  last_accessed := now }))

end SessionManager

section Lemmas

open SessionManager

theorem findSession_updateSession (db : RegistryDB) (sid : String)
    (f : SessionModel → SessionModel) (hid : ∀ s, (f s).id = s.id) :
    findSession (updateSession db sid f) sid = (findSession db sid).map f := by
  induction db with
  | nil => rfl
  | cons r rest ih =>
      by_cases h : r.id = sid
      · simp [findSession, updateSession, h, hid r]
      · simp [findSession, updateSession, h, ih]

theorem findSession_append_of_none (db : RegistryDB) (sid : String)
    (s : SessionModel) (hnone : findSession db sid = none) (hid : s.id = sid) :
    findSession (db ++ [s]) sid = some s := by
  induction db with
  | nil => simp [findSession, hid]
  | cons r rest ih =>
      by_cases h : r.id = sid
      · simp [findSession, h] at hnone
      · have hnone' : findSession rest sid = none := by
          simpa [findSession, h] using hnone
        simpa [findSession, h] using ih hnone'

theorem counts_cons (n k : Nat) :
    (List.range (k + 1)).map (fun i => n + i + 1) =
      (n + 1) :: (List.range k).map (fun i => (n + 1) + i + 1) := by
  rw [List.range_succ_eq_map, List.map_cons, List.map_map]
  have hf : (fun i => n + i + 1) ∘ Nat.succ = fun i => (n + 1) + i + 1 := by
    funext i
    show n + (i + 1) + 1 = (n + 1) + i + 1
    omega
  rw [hf]

theorem appendHistoryN_spec (sid : String) (now : Timestamp) (es : List TerminalEntry) :
    ∀ (db : RegistryDB) (s : SessionModel), findSession db sid = some s →
      ∃ db', appendHistoryN sid now es db =
               (.ok ((List.range es.length).map (fun i => s.history.length + i + 1)), db') ∧
             findSession db' sid =
               some { s with history := s.history ++ es,
                             last_accessed := if es.isEmpty then s.last_accessed else now } := by
  induction es with
  | nil =>
      intro db s hs
      refine ⟨db, by simp [appendHistoryN], ?_⟩
      simp only [List.append_nil, List.isEmpty_nil, ite_true]
      exact hs
  | cons e es ih =>
      intro db s hs
      have h₁ : findSession
          (updateSession db sid (fun t =>
            { t with history := t.history ++ [e], last_accessed := now })) sid =
          some { s with history := s.history ++ [e], last_accessed := now } := by
        rw [findSession_updateSession db sid
              (fun t => { t with history := t.history ++ [e], last_accessed := now })
              (fun t => rfl), hs]
        rfl
      obtain ⟨db', hrun, hfind⟩ := ih _ _ h₁
      refine ⟨db', ?_, ?_⟩
      · simp only [appendHistoryN, add_history_entry, hs]
        rw [hrun]
        simp only [List.length_cons, List.length_append, List.length_cons,
                   List.length_nil]
        rw [counts_cons s.history.length es.length]
      · rw [hfind]
        cases es <;> simp [List.append_assoc, List.singleton_append]

end Lemmas

/-- C3: recordActivity on an absent session auto-creates it with the given
language; on a stored-language mismatch it fails with a 400 LanguageConflict
rejection and leaves the database (hence the stored language and all other
session metadata) unchanged; on a match it increments the execution count and
refreshes the last-accessed timestamp. -/
theorem recordActivity_contract (db : RegistryDB) (sid lang : String) (now : Timestamp) :
    (SessionManager.findSession db sid = none →
      ∃ db', SessionManager.update_session_activity sid lang now db =
               (.ok "Session activity updated", db') ∧
             ∃ s', SessionManager.findSession db' sid = some s' ∧
                   s'.language = lang ∧ s'.execution_count = 0 ∧
                   s'.last_accessed = now) ∧
    (∀ s, SessionManager.findSession db sid = some s → s.language ≠ lang →
      ∃ e, SessionManager.update_session_activity sid lang now db = (.error e, db) ∧
           e.status = 400) ∧
    (∀ s, SessionManager.findSession db sid = some s → s.language = lang →
      ∃ db', SessionManager.update_session_activity sid lang now db =
               (.ok "Session activity updated", db') ∧
             SessionManager.findSession db' sid =
               some { s with last_accessed := now,
                             execution_count := s.execution_count + 1 }) := by
  refine ⟨?_, ?_, ?_⟩
  · intro hnone
    refine ⟨db ++ [SessionManager.autoCreated sid lang now db], ?_,
            SessionManager.autoCreated sid lang now db,
            findSession_append_of_none db sid _ hnone rfl, rfl, rfl, rfl⟩
    simp [SessionManager.update_session_activity, hnone]
  · intro s hs hne
    refine ⟨⟨400, "Session " ++ sid ++ " is configured for " ++ s.language ++
                  ", cannot execute " ++ lang ++ " code"⟩, ?_, rfl⟩
    simp [SessionManager.update_session_activity, hs, hne]
  · intro s hs heq
    refine ⟨SessionManager.updateSession db sid
              (fun t => { t with last_accessed := now,
                                 execution_count := t.execution_count + 1 }), ?_, ?_⟩
    · simp [SessionManager.update_session_activity, hs, heq]
    · rw [findSession_updateSession db sid
            (fun t => { t with last_accessed := now,
                               execution_count := t.execution_count + 1 })
            (fun t => rfl), hs]
      rfl

/-- A concrete session row used to instantiate the registry theorems. -/
def session1 : SessionModel :=
  { id := "s1", name := "Session 1", language := "python",
    created_at := 0, last_accessed := 0, execution_count := 0,
    history := [], environment_data := none,
    environment_language := none, environment_updated := none }

/-- A concrete one-row registry database. -/
def db1 : RegistryDB := [session1]

/-- Witness for the recordActivity contract: on `db1`, activity recorded for
session s1 with matching language python increments the count and refreshes
last-accessed. -/
theorem recordActivity_contract_witness :
    ∃ db', SessionManager.update_session_activity "s1" "python" 5 db1 =
             (.ok "Session activity updated", db') ∧
           SessionManager.findSession db' "s1" =
             some { session1 with last_accessed := 5,
                                  execution_count := session1.execution_count + 1 } :=
  (recordActivity_contract db1 "s1" "python" 5).2.2 session1 rfl rfl

/-- C5: starting from an empty history, N successful appendHistory calls
return the counts 1..N (the N-th call returns N) and leave the stored
history equal to the entries in call order; moreover a single append
replaces the stored sequence by a fresh one, the old sequence with the
entry appended, which is a different list value (copy-on-write, so the
persistence layer detects the change). -/
theorem appendHistory_monotonic (db : RegistryDB) (sid : String) (now : Timestamp)
    (es : List TerminalEntry) (s : SessionModel)
    (hs : SessionManager.findSession db sid = some s) (hemp : s.history = []) :
    (∃ db' s', SessionManager.appendHistoryN sid now es db =
        (.ok ((List.range es.length).map (fun i => i + 1)), db') ∧
      SessionManager.findSession db' sid = some s' ∧ s'.history = es) ∧
    (∀ db₂ s₂ e, SessionManager.findSession db₂ sid = some s₂ →
      ∃ db₃, SessionManager.add_history_entry sid e now db₂ =
               (.ok (s₂.history.length + 1), db₃) ∧
        SessionManager.findSession db₃ sid =
          some { s₂ with history := s₂.history ++ [e], last_accessed := now } ∧
        s₂.history ++ [e] ≠ s₂.history) := by
  constructor
  · obtain ⟨db', hrun, hfind⟩ := appendHistoryN_spec sid now es db s hs
    refine ⟨db', _, ?_, hfind, by simp [hemp]⟩
    rw [hrun, hemp]
    simp
  · intro db₂ s₂ e hs₂
    refine ⟨SessionManager.updateSession db₂ sid (fun t =>
              { t with history := t.history ++ [e], last_accessed := now }), ?_, ?_, ?_⟩
    · simp [SessionManager.add_history_entry, hs₂]
    · rw [findSession_updateSession db₂ sid
            (fun t => { t with history := t.history ++ [e], last_accessed := now })
            (fun t => rfl), hs₂]
      rfl
    · intro h
      have := congrArg List.length h
      simp at this

/-- Two concrete history entries used to instantiate the history theorems. -/
def entryA : TerminalEntry :=
  { id := "e1", type := "input", content := "x = 1", timestamp := "t1" }

/-- A second concrete history entry. -/
def entryB : TerminalEntry :=
  { id := "e2", type := "output", content := "1", timestamp := "t2" }

/-- Witness for history monotonicity: two appends on the empty-history
session of `db1` return counts 1 and 2 and store the two entries in call
order. -/
theorem appendHistory_monotonic_witness :
    ∃ db' s', SessionManager.appendHistoryN "s1" 3 [entryA, entryB] db1 =
        (.ok ((List.range [entryA, entryB].length).map (fun i => i + 1)), db') ∧
      SessionManager.findSession db' "s1" = some s' ∧ s'.history = [entryA, entryB] :=
  (appendHistory_monotonic db1 "s1" 3 [entryA, entryB] session1 rfl rfl).1

/-- C6 counterexample: the round-trip fails for the empty payload. On the
one-session database `db1`, putEnvironment with payload "" followed by
getEnvironment returns "no environment stored" (because the handler treats
the falsy empty string like an absent environment), not the byte-identical
payload "" with its language tag. -/
theorem putEnvironment_roundtrip_counterexample :
    (SessionManager.get_session_environment "s1" 2
        (SessionManager.update_session_environment "s1"
          { language := "python", serialized_data := some "" } 1 db1).2).1 =
      .ok none ∧
    ∀ env : EnvironmentState,
      (.ok none : Except HttpErr (Option EnvironmentState)) ≠ .ok (some env) := by
  constructor
  · rfl
  · intro env h
    simp at h

/-- C6 amended: for every existing session and every NON-EMPTY payload and
language tag, putEnvironment followed by getEnvironment returns the
byte-identical payload and the matching language tag (the empty payload is
instead reported as no environment stored). -/
theorem putEnvironment_roundtrip (db : RegistryDB) (sid lang p : String)
    (t₁ t₂ : Timestamp) (s : SessionModel)
    (hs : SessionManager.findSession db sid = some s) (hp : p ≠ "") :
    ∃ db', SessionManager.update_session_environment sid
             { language := lang, serialized_data := some p } t₁ db =
             (.ok "Environment state updated", db') ∧
           (SessionManager.get_session_environment sid t₂ db').1 =
             .ok (some { language := lang, serialized_data := some p,
                         last_updated := t₁ }) := by
  refine ⟨SessionManager.updateSession db sid (fun t =>
            { t with environment_data := some p
                     environment_language := some lang
                     environment_updated := some t₁
                     last_accessed := t₁ }), ?_, ?_⟩
  · simp [SessionManager.update_session_environment, hs]
  · have hfind := findSession_updateSession db sid
      (fun t => { t with environment_data := some p
                         environment_language := some lang
                         environment_updated := some t₁
                         last_accessed := t₁ }) (fun t => rfl)
    rw [hs] at hfind
    simp [SessionManager.get_session_environment, hfind,
          SessionManager.environmentView, hp]

/-- Witness for the amended round-trip on a concrete database and payload. -/
theorem putEnvironment_roundtrip_witness :
    ∃ db', SessionManager.update_session_environment "s1"
             { language := "python", serialized_data := some "BLOB" } 1 db1 =
             (.ok "Environment state updated", db') ∧
           (SessionManager.get_session_environment "s1" 2 db').1 =
             .ok (some { language := "python", serialized_data := some "BLOB",
                         last_updated := 1 }) :=
  putEnvironment_roundtrip db1 "s1" "python" "BLOB" 1 2 session1 rfl (by decide)

/-- C9: the three registry reads of an existing session — get session, get
history, get environment — all write back the refreshed last-accessed
timestamp, so a read with a fresh timestamp changes the stored state:
reads are not pure with respect to session metadata. -/
theorem registry_reads_mutate (db : RegistryDB) (sid : String) (now : Timestamp)
    (s : SessionModel) (hs : SessionManager.findSession db sid = some s) :
    SessionManager.findSession (SessionManager.get_session sid now db).2 sid =
      some { s with last_accessed := now } ∧
    SessionManager.findSession (SessionManager.get_session_history sid now db).2 sid =
      some { s with last_accessed := now } ∧
    SessionManager.findSession (SessionManager.get_session_environment sid now db).2 sid =
      some { s with last_accessed := now } ∧
    (now ≠ s.last_accessed → (SessionManager.get_session sid now db).2 ≠ db) := by
  have hfind := findSession_updateSession db sid
    (fun t => { t with last_accessed := now }) (fun t => rfl)
  rw [hs] at hfind
  refine ⟨?_, ?_, ?_, ?_⟩
  · simpa [SessionManager.get_session, hs] using hfind
  · simpa [SessionManager.get_session_history, hs] using hfind
  · simpa [SessionManager.get_session_environment, hs] using hfind
  · intro hnow heq
    have h1 : SessionManager.findSession (SessionManager.get_session sid now db).2 sid =
        some { s with last_accessed := now } := by
      simpa [SessionManager.get_session, hs] using hfind
    rw [heq, hs] at h1
    have h2 := congrArg (fun o => (o.map SessionModel.last_accessed).getD 0) h1
    simp at h2
    exact hnow h2.symm

/-- Witness: on the concrete database `db1`, reading session s1 at time 9
stores last-accessed 9 and changes the database. -/
theorem registry_reads_mutate_witness :
    SessionManager.findSession (SessionManager.get_session "s1" 9 db1).2 "s1" =
      some { session1 with last_accessed := 9 } ∧
    (SessionManager.get_session "s1" 9 db1).2 ≠ db1 := by
  have h := registry_reads_mutate db1 "s1" 9 session1 rfl
  exact ⟨h.1, h.2.2.2 (by decide)⟩

/-- A guest-language namespace: the session's variable bindings, with
values abstracted as strings (the pickled representation is opaque). -/
abbrev Namespace := List (String × String)

/-- code.strip() is the empty string exactly when every character of the
code is whitespace; the backends' blank-input validation tests this. -/
def isBlank (s : String) : Bool := s.data.all Char.isWhitespace

namespace PyBackend

/-- Outcome of eval(code, namespace). eval can return a value (`none`
models Python's None), raise a SyntaxError — at parse time, when the code
is not an expression (namespace and output untouched), or AT RUNTIME,
raised by the evaluated expression itself after part of its effects
already occurred — or raise an exception of any other type. Each case
carries the namespace and the captured output the call leaves behind. -/
inductive EvalOutcome where
  | value (ns : Namespace) (out : String) (v : Option String)
  | syntaxError (ns : Namespace) (out : String)
  | otherError (ns : Namespace) (out : String) (msg : String)

/-- Outcome of exec(code, namespace): completion or a runtime exception,
each with the namespace and captured output it leaves behind. -/
inductive ExecOutcome where
  | ok (ns : Namespace) (out : String)
  | err (ns : Namespace) (out : String) (msg : String)

/-- A submitted code unit: its raw text together with its guest-language
semantics in expression style and in statement style. -/
structure PyCode where
  text : String
  evalStep : Namespace → EvalOutcome
  execStep : Namespace → ExecOutcome

/-- Result of the eval-or-exec bracket shared by execute_code and
stream_python_execution. -/
inductive RunResult where
  | success (ns : Namespace) (out : String)
  | failure (ns : Namespace) (out : String) (msg : String)
deriving DecidableEq

/-- The try/except eval-or-exec dispatch of execute_code and
stream_python_execution: try eval first; a non-None eval value is printed;
the `except SyntaxError` clause catches by EXCEPTION TYPE — it fires both
on parse-time rejection and on a SyntaxError raised at runtime by the
evaluated expression — and re-runs the whole code as a statement against
the namespace eval left behind, appending to the already captured output;
an exception of any other type propagates to the outer handler as a
failure. -/
def runEvalExec (c : PyCode) (ns : Namespace) : RunResult :=
  match c.evalStep ns with
  | .value ns' out v =>
      .success ns' (out ++ (match v with | some s => s ++ "\n" | none => ""))
  | .syntaxError ns' out =>
      match c.execStep ns' with
      | .ok ns'' out' => .success ns'' (out ++ out')
      | .err ns'' out' msg => .failure ns'' (out ++ out') msg
  | .otherError ns' out msg => .failure ns' out msg

/-- The backend's view of the registry for one session: the session's
stored language (`none` when the session is absent or the registry is
unreachable, in which case verification fails), the stored environment
blob, and the activity counter maintained via the activity endpoint. -/
structure PyStore where
  language : Option String
  env : Option String
  activity : Nat
deriving DecidableEq

/-- The response body of POST /execute. -/
structure CodeResponse where
  output : String
  error : Option String
deriving DecidableEq

/-- Result of an execute request: an HTTPException or a 200 response. -/
inductive ExecuteResult where
  | httpError (status : Nat) (detail : String)
  | response (r : CodeResponse)
deriving DecidableEq

/-- get_session_namespace: the stored blob decoded, the empty namespace
when there is none (deserialization itself is abstracted as `deser`). -/
def sessionNamespace (deser : String → Namespace) (st : PyStore) : Namespace :=
  match st.env with
  | none => []
  | some d => deser d

/-- POST /execute/\x7bsession_id\x7d (execute_code in python/main.py):
verify the session language, reject blank code, pull and decode the
namespace, run the eval-or-exec bracket, and — only when no exception was
raised — re-encode and push the namespace; then notify activity and format
the response (the error field carries the formatted exception message). -/
def execute_code (ser : Namespace → String) (deser : String → Namespace)
    (c : PyCode) (st : PyStore) : ExecuteResult × PyStore :=
  if st.language ≠ some "python" then
    (.httpError 400 "Session is not configured for Python", st)
  else if isBlank c.text then
    (.httpError 400 "Code cannot be empty", st)
  else
    match runEvalExec c (sessionNamespace deser st) with
    | .success ns' out =>
        (.response { output := out, error := none },
         { st with env := some (ser ns'), activity := st.activity + 1 })
    | .failure _ out msg =>
        (.response { output := out, error := some msg },
         { st with activity := st.activity + 1 })

end PyBackend

/-- C1 counterexample: an execute request whose statement-style execution
raises a runtime error after mutating the namespace. The response reports
the error, yet the store still holds the pre-execution blob "OLD" — the
mutated state is NOT re-encoded and pushed back, so partial progress is
lost, contradicting the claim (which would require the stored blob to be
the re-encoding "ENC" of the mutated namespace). -/
theorem execute_saves_on_error_counterexample :
    (PyBackend.execute_code (fun _ => "ENC") (fun d => [("x", d)])
      { text := "boom",
        evalStep := fun ns => .syntaxError ns "",
        execStep := fun ns => .err (("y", "2") :: ns) "partial" "RuntimeError: boom" }
      { language := some "python", env := some "OLD", activity := 0 }) =
    (.response { output := "partial", error := some "RuntimeError: boom" },
     { language := some "python", env := some "OLD", activity := 1 }) ∧
    some "OLD" ≠ some ((fun (_ : Namespace) => "ENC") [("y", "2"), ("x", "OLD")]) := by
  constructor
  · rfl
  · simp

/-- C1 amended: the in-process backend re-encodes and pushes the namespace
back to the Registry only when execution completed without a runtime
error; when execution raises, the save is skipped and the stored
EnvironmentState is left exactly as it was before the request (partial
progress is lost on the non-streaming path). -/
theorem execute_saves_only_on_success (ser : Namespace → String)
    (deser : String → Namespace) (c : PyBackend.PyCode) (st : PyBackend.PyStore)
    (hl : st.language = some "python") (hc : isBlank c.text = false) :
    (∀ ns' out,
      PyBackend.runEvalExec c (PyBackend.sessionNamespace deser st) =
        .success ns' out →
      (PyBackend.execute_code ser deser c st).2.env = some (ser ns')) ∧
    (∀ ns' out msg,
      PyBackend.runEvalExec c (PyBackend.sessionNamespace deser st) =
        .failure ns' out msg →
      (PyBackend.execute_code ser deser c st).2.env = st.env ∧
      (PyBackend.execute_code ser deser c st).1 =
        .response { output := out, error := some msg }) := by
  constructor
  · intro ns' out hrun
    simp [PyBackend.execute_code, hl, hc, hrun]
  · intro ns' out msg hrun
    constructor <;> simp [PyBackend.execute_code, hl, hc, hrun]

/-- Witness: on a concrete erroring request the store keeps its old blob,
and on a concrete succeeding request the store holds the re-encoded
namespace. -/
theorem execute_saves_only_on_success_witness :
    (PyBackend.execute_code (fun ns => "N" ++ toString ns.length)
        (fun _ => [])
        { text := "x = 1",
          evalStep := fun ns => .syntaxError ns "",
          execStep := fun ns => .ok (("x", "1") :: ns) "" }
        { language := some "python", env := none, activity := 0 }).2.env =
      some ((fun (ns : Namespace) => "N" ++ toString ns.length) [("x", "1")]) := by
  have h := (execute_saves_only_on_success (fun ns => "N" ++ toString ns.length)
    (fun _ => [])
    { text := "x = 1",
      evalStep := fun ns => .syntaxError ns "",
      execStep := fun ns => .ok (("x", "1") :: ns) "" }
    { language := some "python", env := none, activity := 0 }
    rfl (by decide)).1 [("x", "1")] "" rfl
  exact h

/-- A concrete code unit — in the manner of
[print(1), compile(bad, f, exec)] — whose expression evaluation prints
and binds partial results and THEN raises a SyntaxError at runtime from
the compile call; run as a statement it performs its effects again. -/
def runtimeSyntaxErrorCode : PyBackend.PyCode :=
  { text := "[print(1), compile(bad)]",
    evalStep := fun ns => .syntaxError (("e1", "1") :: ns) "1\n",
    execStep := fun ns => .ok (("e2", "1") :: ns) "1\n" }

/-- C4 counterexample: the except clause catches the SyntaxError TYPE, not
parse-time rejection. A SyntaxError raised at runtime by the evaluated
expression, after the expression already printed and mutated the
namespace, is retried as a statement: the run succeeds with the output
emitted twice and both rounds of effects in the namespace, instead of
being reported as an execution error — the claim fails at this input. -/
theorem evalExec_runtime_syntaxerror_counterexample :
    PyBackend.runEvalExec runtimeSyntaxErrorCode [] =
      .success [("e2", "1"), ("e1", "1")] "1\n1\n" ∧
    (∀ ns out msg,
      PyBackend.runEvalExec runtimeSyntaxErrorCode [] ≠ .failure ns out msg) := by
  refine ⟨rfl, ?_⟩
  intro ns out msg h
  rw [show PyBackend.runEvalExec runtimeSyntaxErrorCode [] =
        .success [("e2", "1"), ("e1", "1")] "1\n1\n" from rfl] at h
  exact PyBackend.RunResult.noConfusion h

/-- C4 amended: the eval-or-exec dispatch falls back to statement-style
execution exactly when eval raises SyntaxError — usually syntactic
rejection at parse time, but also a SyntaxError raised at runtime by the
evaluated expression, whose prior side effects then stand while the code
is re-run as a statement — and a runtime failure of any OTHER exception
type is reported as an execution error, its result independent of the
statement-style semantics (never retried as a statement). -/
theorem evalExec_dispatch (c : PyBackend.PyCode) (ns : Namespace) :
    (∀ ns' out, c.evalStep ns = .syntaxError ns' out →
      PyBackend.runEvalExec c ns =
        (match c.execStep ns' with
         | .ok ns'' out' => .success ns'' (out ++ out')
         | .err ns'' out' msg => .failure ns'' (out ++ out') msg)) ∧
    (∀ ns' out msg, c.evalStep ns = .otherError ns' out msg →
      PyBackend.runEvalExec c ns = .failure ns' out msg ∧
      (∀ g, PyBackend.runEvalExec { c with execStep := g } ns =
              .failure ns' out msg)) ∧
    (∀ ser deser (st : PyBackend.PyStore) ns' out msg,
      st.language = some "python" → isBlank c.text = false →
      c.evalStep (PyBackend.sessionNamespace deser st) = .otherError ns' out msg →
      (PyBackend.execute_code ser deser c st).1 =
        .response { output := out, error := some msg }) := by
  refine ⟨?_, ?_, ?_⟩
  · intro ns' out h
    simp [PyBackend.runEvalExec, h]
  · intro ns' out msg h
    exact ⟨by simp [PyBackend.runEvalExec, h], fun g => by simp [PyBackend.runEvalExec, h]⟩
  · intro ser deser st ns' out msg hl hc h
    simp [PyBackend.execute_code, hl, hc, PyBackend.runEvalExec, h]

/-- A concrete code unit whose expression evaluation raises a non-syntax
exception at runtime. -/
def runtimeFailCode : PyBackend.PyCode :=
  { text := "undefined_name",
    evalStep := fun ns => .otherError ns "" "NameError: name is not defined",
    execStep := fun ns => .ok ns "" }

/-- Witness: a non-SyntaxError runtime failure during expression
evaluation yields a failure whatever the statement-style semantics is,
and the response carries the error; a parse-time SyntaxError falls back
to the statement path. -/
theorem evalExec_dispatch_witness :
    (PyBackend.runEvalExec runtimeFailCode [] =
      .failure [] "" "NameError: name is not defined") ∧
    (PyBackend.execute_code (fun _ => "") (fun _ => []) runtimeFailCode
        { language := some "python", env := none, activity := 0 }).1 =
      .response { output := "", error := some "NameError: name is not defined" } ∧
    PyBackend.runEvalExec
        { text := "x = 1",
          evalStep := fun ns => .syntaxError ns "",
          execStep := fun ns => .ok (("x", "1") :: ns) "" } [] =
      .success [("x", "1")] ("" ++ "") := by
  have h := evalExec_dispatch runtimeFailCode []
  have h₂ := (evalExec_dispatch
    { text := "x = 1",
      evalStep := fun ns => .syntaxError ns "",
      execStep := fun ns => .ok (("x", "1") :: ns) "" } []).1 [] "" rfl
  exact ⟨(h.2.1 [] "" "NameError: name is not defined" rfl).1,
         h.2.2 (fun _ => "") (fun _ => []) _ [] "" "NameError: name is not defined"
           rfl (by decide) rfl,
         h₂⟩

namespace PyBackend

/-- The fallible decoding steps used by deserialize_namespace, abstracted:
base64.b64decode and pickle.loads may each fail (raise), and
double-underscore module markers are re-imported by name, which may fail
with ImportError. -/
structure PickleCodec where
  b64decode : String → Option String
  unpickle : String → Option Namespace
  importModule : String → Option String

/-- The module re-import pass of deserialize_namespace: entries whose key
carries the module marker prefix are removed and, when the module can be
re-imported by its stored name, re-added under the original key; failed
imports are dropped. -/
def reimportModules (imp : String → Option String) (ns : Namespace) : Namespace :=
  (ns.filter (fun kv => !(kv.1.startsWith "__module__"))) ++
  (ns.filterMap (fun kv =>
    if kv.1.startsWith "__module__" then
      match imp kv.2 with
      | some m => some (kv.1.drop 10, m)
      | none => none
    else none))

/-- deserialize_namespace: empty payloads decode to the empty namespace;
base64 decoding and unpickling are attempted inside a try block whose
except clause returns the empty namespace; a successful decode goes
through the module re-import pass. -/
def deserialize_namespace (c : PickleCodec) (s : String) : Namespace :=
  if s = "" then []
  else
    match c.b64decode s with
    | none => []
    | some bytes =>
        match c.unpickle bytes with
        | none => []
        | some ns => reimportModules c.importModule ns

end PyBackend

/-- C10: namespace deserialization is total — for every stored payload it
returns a namespace and never raises: either the payload fails to decode
at some stage (empty string, malformed base64, un-unpicklable bytes) and
the result is exactly the empty namespace, or the decode pipeline succeeds
and the result is the decoded namespace after module re-import. Execution
therefore always proceeds, possibly with fresh state. -/
theorem deserialize_namespace_total (c : PyBackend.PickleCodec) (s : String) :
    PyBackend.deserialize_namespace c s = [] ∨
    ∃ bytes ns, c.b64decode s = some bytes ∧ c.unpickle bytes = some ns ∧
      PyBackend.deserialize_namespace c s =
        PyBackend.reimportModules c.importModule ns := by
  by_cases hs : s = ""
  · left
    simp [PyBackend.deserialize_namespace, hs]
  · cases hb : c.b64decode s with
    | none => left; simp [PyBackend.deserialize_namespace, hs, hb]
    | some bytes =>
        cases hu : c.unpickle bytes with
        | none => left; simp [PyBackend.deserialize_namespace, hs, hb, hu]
        | some ns =>
            right
            exact ⟨bytes, ns, rfl, hu,
                   by simp [PyBackend.deserialize_namespace, hs, hb, hu]⟩

/-- A Server-Sent Event emitted by a streaming execution. -/
inductive SSEEvent where
  | output (content : String)
  | error (content : String)
  | complete (returnCode : Int)
deriving DecidableEq

/-- The number of terminal complete events in an event sequence. -/
def countComplete (es : List SSEEvent) : Nat :=
  es.countP (fun e => match e with | .complete _ => true | _ => false)

namespace PyBackend

/-- POST /execute-stream (stream_python_execution): setup failures — a
session not configured for Python or blank code — emit a single error
event and return at once; otherwise the worker thread runs the same
eval-or-exec bracket, its captured stdout and stderr are drained into
output/error events (the poll-interval chunking of the output is
timing-dependent and is abstracted into one drained output event; a
runtime failure always prints its formatted message to stderr, hence one
error event), the namespace is saved back unconditionally — on failures
too — and exactly one complete event is emitted with return code 0 or 1.
`loopExn` models an exception raised inside the emission loop itself
(e.g., thread creation failing), whose except clause emits an error event
followed by a complete event with return code 1. -/
def stream_python_execution (ser : Namespace → String) (deser : String → Namespace)
    (c : PyCode) (st : PyStore) (loopExn : Option String) :
    List SSEEvent × PyStore :=
  if st.language ≠ some "python" then
    ([.error "Session is not configured for Python"], st)
  else if isBlank c.text then
    ([.error "Code cannot be empty"], st)
  else
    match loopExn with
    | some m =>
        ([.error ("Execution error: " ++ m), .complete 1],
         { st with activity := st.activity + 1 })
    | none =>
        match runEvalExec c (sessionNamespace deser st) with
        | .success ns' out =>
            ((if out = "" then [] else [.output out]) ++ [.complete 0],
             { st with env := some (ser ns'), activity := st.activity + 1 })
        | .failure ns' out msg =>
            ((if out = "" then [] else [.output out]) ++ [.error msg, .complete 1],
             { st with env := some (ser ns'), activity := st.activity + 1 })

end PyBackend

namespace BashBackend

/-- The observable behaviour of the spawned bash subprocess: the lines it
writes to each stream and its exit code. -/
structure Subprocess where
  stdoutLines : List String
  stderrLines : List String
  returncode : Int
deriving DecidableEq

/-- How the streaming run ends: normal end-of-stream, an asyncio timeout,
or some other exception. -/
inductive RunMode where
  | normal
  | timeout
  | exn (msg : String)
deriving DecidableEq

/-- POST /execute-stream (stream_command_output in bash/main.py): on a
normal run the subprocess lines are emitted tagged by origin stream (their
exact interleaving is timing-dependent and abstracted away) followed by
exactly one complete event carrying the exit code; on a timeout or on any
other exception only an error event is emitted — the generator returns
with NO complete event. -/
def stream_command_output (p : Subprocess) (m : RunMode) : List SSEEvent :=
  match m with
  | .normal =>
      p.stdoutLines.map SSEEvent.output ++ p.stderrLines.map SSEEvent.error ++
        [.complete p.returncode]
  | .timeout => [.error "Command execution timed out after 30 seconds"]
  | .exn msg => [.error ("Error executing command: " ++ msg)]

end BashBackend

/-- C2 counterexample: streaming executions exist that terminate with zero
complete events, not exactly one. A python streaming request against a
session configured for javascript emits one error event and no complete
event, and a bash streaming run that times out likewise emits no complete
event. -/
theorem streaming_single_complete_counterexample :
    countComplete (PyBackend.stream_python_execution (fun _ => "") (fun _ => [])
        { text := "print(1)",
          evalStep := fun ns => .value ns "1\n" none,
          execStep := fun ns => .ok ns "" }
        { language := some "javascript", env := none, activity := 0 } none).1 = 0 ∧
    countComplete (BashBackend.stream_command_output
        { stdoutLines := [], stderrLines := [], returncode := 0 } .timeout) = 0 := by
  constructor <;> rfl

theorem countComplete_append (a b : List SSEEvent) :
    countComplete (a ++ b) = countComplete a + countComplete b := by
  simp [countComplete, List.countP_append]

theorem countComplete_map_output (l : List String) :
    countComplete (l.map SSEEvent.output) = 0 := by
  induction l with
  | nil => rfl
  | cons a t ih => simp [countComplete, List.countP_cons, ih]

theorem countComplete_map_error (l : List String) :
    countComplete (l.map SSEEvent.error) = 0 := by
  induction l with
  | nil => rfl
  | cons a t ih => simp [countComplete, List.countP_cons, ih]

/-- C2 amended: a python streaming request whose setup succeeds (session
configured for Python, non-blank code) emits exactly one terminal complete
event — 0 on success, 1 on failure, also when the emission loop itself
raises — but the setup-failure paths (wrong-language session, blank code)
emit an error event and zero complete events; a bash streaming run emits
exactly one complete event on the normal path and zero on the timeout and
exception paths. -/
theorem streaming_single_complete (ser : Namespace → String)
    (deser : String → Namespace) (c : PyBackend.PyCode) (st : PyBackend.PyStore)
    (x : Option String) (p : BashBackend.Subprocess) :
    (st.language = some "python" → isBlank c.text = false →
      countComplete (PyBackend.stream_python_execution ser deser c st x).1 = 1) ∧
    (st.language ≠ some "python" ∨ isBlank c.text = true →
      countComplete (PyBackend.stream_python_execution ser deser c st x).1 = 0) ∧
    countComplete (BashBackend.stream_command_output p .normal) = 1 ∧
    countComplete (BashBackend.stream_command_output p .timeout) = 0 ∧
    (∀ m, countComplete (BashBackend.stream_command_output p (.exn m)) = 0) := by
  refine ⟨?_, ?_, ?_, rfl, fun m => rfl⟩
  · intro hl hc
    cases x with
    | some m =>
        simp [PyBackend.stream_python_execution, hl, hc, countComplete,
              List.countP_cons]
    | none =>
        cases h : PyBackend.runEvalExec c (PyBackend.sessionNamespace deser st) with
        | success ns' out =>
            by_cases ho : out = "" <;>
              simp [PyBackend.stream_python_execution, hl, hc, h, ho,
                    countComplete_append, countComplete, List.countP_cons]
        | failure ns' out msg =>
            by_cases ho : out = "" <;>
              simp [PyBackend.stream_python_execution, hl, hc, h, ho,
                    countComplete_append, countComplete, List.countP_cons]
  · intro hfail
    rcases hfail with hl | hc
    · simp [PyBackend.stream_python_execution, hl, countComplete, List.countP_cons]
    · by_cases hl : st.language = some "python" <;>
        simp [PyBackend.stream_python_execution, hl, hc, countComplete,
              List.countP_cons]
  · show countComplete ((p.stdoutLines.map SSEEvent.output ++
          p.stderrLines.map SSEEvent.error) ++ [.complete p.returncode]) = 1
    rw [countComplete_append, countComplete_append, countComplete_map_output,
        countComplete_map_error]
    rfl

/-- Witness: a concrete well-set-up python streaming request emits exactly
one complete event, and a concrete normal bash streaming run does too. -/
theorem streaming_single_complete_witness :
    countComplete (PyBackend.stream_python_execution (fun _ => "") (fun _ => [])
        { text := "print(1)",
          evalStep := fun ns => .value ns "1\n" none,
          execStep := fun ns => .ok ns "" }
        { language := some "python", env := none, activity := 0 } none).1 = 1 ∧
    countComplete (BashBackend.stream_command_output
        { stdoutLines := ["a\n", "b\n"], stderrLines := [], returncode := 0 }
        .normal) = 1 := by
  have h := streaming_single_complete (fun _ => "") (fun _ => [])
    { text := "print(1)",
      evalStep := fun ns => .value ns "1\n" none,
      execStep := fun ns => .ok ns "" }
    { language := some "python", env := none, activity := 0 } none
    { stdoutLines := ["a\n", "b\n"], stderrLines := [], returncode := 0 }
  exact ⟨h.1 rfl (by decide), h.2.2.1⟩

namespace BashBackend

/-- The result of subprocess.run for a completed process. -/
structure ProcResult where
  stdout : String
  stderr : String
  returncode : Int
deriving DecidableEq

/-- How the subprocess call ends: completion, subprocess.TimeoutExpired,
or any other exception. -/
inductive RunOutcome where
  | completed (r : ProcResult)
  | timedOut
  | failed (msg : String)
deriving DecidableEq

/-- The response body of the command backends' POST /execute. -/
structure ExecuteResponse where
  output : String
  error : Option String
deriving DecidableEq

/-- POST /execute/\x7bsession_id\x7d (execute_code in bash/main.py): blank
code is rejected with 400; otherwise the command runs in the session's
working directory (the session bookkeeping — directory creation and
execution counter — does not influence the response and is elided); stderr
text becomes the error field, and a non-zero exit code with empty stderr
synthesizes a "Command exited with code N" error. -/
def execute_code (code : String) (o : RunOutcome) : Except HttpErr ExecuteResponse :=
  if isBlank code then .error ⟨400, "Code cannot be empty"⟩
  else
    match o with
    | .completed r =>
        let e₁ : Option String := if r.stderr ≠ "" then some r.stderr else none
        let e₂ : Option String :=
          if r.returncode ≠ 0 ∧ e₁ = none then
            some ("Command exited with code " ++ toString r.returncode)
          else e₁
        .ok { output := r.stdout, error := e₂ }
    | .timedOut => .ok { output := "", error := some "Command execution timed out after 30 seconds" }
    | .failed m => .ok { output := "", error := some ("Error executing command: " ++ m) }

/-- The bash backend's in-memory session table entry. -/
structure BashSession where
  created_at : Timestamp
  last_accessed : Timestamp
  execution_count : Nat
deriving DecidableEq

/-- The bash backend's in-memory session table. -/
abbrev Sessions := List (String × BashSession)

/-- POST /reset/\x7bsession_id\x7d (reset_session in bash/main.py): wipes
the working directory and removes the session entry when present, and in
every case — session present or missing — returns the success message. -/
def reset_session (sid : String) (ss : Sessions) : String × Sessions :=
  ("Session reset successfully", ss.filter (fun kv => kv.1 != sid))

end BashBackend

namespace PerlBackend

/-- The strict-mode preamble the history file is initialized with. -/
def historyPreamble : String := "#!/usr/bin/perl\nuse strict;\nuse warnings;\n\n"

/-- The perl backend's in-memory session entry, with the contents of its
history.pl transcript file. -/
structure PerlSession where
  created_at : Timestamp
  last_accessed : Timestamp
  execution_count : Nat
  history : String
deriving DecidableEq

/-- The perl backend's in-memory session table. -/
abbrev Sessions := List (String × PerlSession)

/-- sessions[session_id], if present. -/
def lookup : Sessions → String → Option PerlSession
  | [], _ => none
  | kv :: t, sid => if kv.1 = sid then some kv.2 else lookup t sid

/-- sessions[session_id] = s. -/
def setSession (ss : Sessions) (sid : String) (s : PerlSession) : Sessions :=
  ss.map (fun kv => if kv.1 == sid then (kv.1, s) else kv)

/-- A brand-new session: zero executions and the initialized transcript. -/
def freshSession (now : Timestamp) : PerlSession :=
  { created_at := now, last_accessed := now, execution_count := 0,
    history := historyPreamble }

/-- get_or_create_session: creates the session (directory and initialized
history file) when absent, then refreshes last-accessed. -/
def get_or_create_session (sid : String) (now : Timestamp) (ss : Sessions) :
    PerlSession × Sessions :=
  match lookup ss sid with
  | some s =>
      ({ s with last_accessed := now },
       setSession ss sid { s with last_accessed := now })
  | none => (freshSession now, ss ++ [(sid, freshSession now)])

/-- The chunk appended to the transcript for execution number n: a marker
comment, the code, and a newline when the code does not end in one. -/
def markerChunk (n : Nat) (code : String) : String :=
  "\n# Execution " ++ toString n ++ "\n" ++ code ++
    (if code.data.getLast? = some (Char.ofNat 10) then "" else "\n")

/-- The response body of POST /execute. -/
structure ExecutionResponse where
  output : String
  error : Option String
deriving DecidableEq

/-- POST /execute/\x7bsession_id\x7d (execute_code in perl/main.py): blank
code is rejected with 400; the execution counter is bumped; the transcript
plus the new code runs as one script; only a zero exit appends the code to
the transcript; the error field is the raw stderr whenever the exit code
is non-zero and null otherwise — no message is synthesized. -/
def execute_code (sid code : String) (now : Timestamp)
    (o : BashBackend.RunOutcome) (ss : Sessions) :
    Except HttpErr ExecutionResponse × Sessions :=
  if isBlank code then (.error ⟨400, "Code cannot be empty"⟩, ss)
  else
    let p := get_or_create_session sid now ss
    let s₁ := { p.1 with execution_count := p.1.execution_count + 1 }
    match o with
    | .completed r =>
        let s₂ := if r.returncode = 0
                  then { s₁ with history := s₁.history ++ markerChunk s₁.execution_count code }
                  else s₁
        (.ok { output := r.stdout,
               error := if r.returncode ≠ 0 then some r.stderr else none },
         setSession p.2 sid s₂)
    | .timedOut =>
        (.ok { output := "", error := some "Execution timed out after 30 seconds" },
         setSession p.2 sid s₁)
    | .failed m =>
        (.ok { output := "", error := some m }, setSession p.2 sid s₁)

/-- POST /reset/\x7bsession_id\x7d (reset_session in perl/main.py): when
the session exists its directory is wiped, the entry deleted and a fresh
session recreated; when it does not exist the table is untouched and a
"not found" message is returned — both paths succeed. -/
def reset_session (sid : String) (now : Timestamp) (ss : Sessions) :
    String × Sessions :=
  match lookup ss sid with
  | some _ =>
      ("Session reset successfully",
       (get_or_create_session sid now (ss.filter (fun kv => kv.1 != sid))).2)
  | none => ("Session not found, creating new session", ss)

end PerlBackend

namespace PyBackend

/-- POST /reset/\x7bsession_id\x7d (reset_namespace in python/main.py):
forwards a DELETE of the session's environment to the registry; a 200
becomes success, a 404 is re-raised as a 404 HTTPException — the python
backend DOES error on a missing session — and other statuses become 500. -/
def reset_namespace (sid : String) (now : Timestamp) (db : RegistryDB) :
    Except HttpErr String × RegistryDB :=
  match SessionManager.clear_session_environment sid now db with
  | (.ok _, db') => (.ok "Namespace reset successfully", db')
  | (.error e, db') =>
      if e.status = 404 then (.error ⟨404, "Session not found"⟩, db')
      else (.error ⟨500, "Failed to reset session environment"⟩, db')

end PyBackend

section ResetLemmas

theorem filter_idem {α : Type} (p : α → Bool) (l : List α) :
    (l.filter p).filter p = l.filter p := by
  induction l with
  | nil => rfl
  | cons a t ih => cases hp : p a <;> simp [List.filter_cons, hp, ih]

theorem updateSession_comp (db : RegistryDB) (sid : String)
    (f g : SessionModel → SessionModel) (hid : ∀ s, (f s).id = s.id) :
    SessionManager.updateSession (SessionManager.updateSession db sid f) sid g =
      SessionManager.updateSession db sid (fun s => g (f s)) := by
  induction db with
  | nil => rfl
  | cons r rest ih =>
      by_cases h : r.id = sid
      · simp [SessionManager.updateSession, h, hid r, ih]
      · simp [SessionManager.updateSession, h, ih]

theorem perl_lookup_filter_self (ss : PerlBackend.Sessions) (sid : String) :
    PerlBackend.lookup (ss.filter (fun kv => kv.1 != sid)) sid = none := by
  induction ss with
  | nil => rfl
  | cons kv t ih =>
      by_cases h : kv.1 = sid
      · have hb : (kv.1 != sid) = false := by simp [h]
        simp [List.filter_cons, hb, ih]
      · have hb : (kv.1 != sid) = true := by simp [h]
        simp [List.filter_cons, hb, PerlBackend.lookup, h, ih]

theorem perl_lookup_append_single (ss : PerlBackend.Sessions) (sid : String)
    (s : PerlBackend.PerlSession)
    (hnone : PerlBackend.lookup ss sid = none) :
    PerlBackend.lookup (ss ++ [(sid, s)]) sid = some s := by
  induction ss with
  | nil => simp [PerlBackend.lookup]
  | cons kv t ih =>
      by_cases h : kv.1 = sid
      · simp [PerlBackend.lookup, h] at hnone
      · simp only [PerlBackend.lookup, h, if_neg, ite_false, List.cons_append] at hnone ⊢
        exact ih hnone

end ResetLemmas

/-- C7 counterexample: the python backend's reset errors on a missing
session. Resetting the unknown session id "ghost" against the registry
`db1` raises a 404 HTTPException instead of succeeding, contradicting the
claim that reset must not error when the session is missing. -/
theorem python_reset_missing_counterexample :
    PyBackend.reset_namespace "ghost" 5 db1 =
      (.error ⟨404, "Session not found"⟩, db1) := by
  rfl

/-- C7 amended: resetting is idempotent on all three backends, and the
bash and perl backends succeed even when the session is missing (bash
returns its success message unconditionally; perl returns a success
message on both paths), but the python backend succeeds only for an
existing session and fails with 404 when the session is missing. -/
theorem reset_contract (sid : String) (now : Timestamp)
    (bss : BashBackend.Sessions) (pss : PerlBackend.Sessions) (db : RegistryDB) :
    ((BashBackend.reset_session sid bss).1 = "Session reset successfully" ∧
     BashBackend.reset_session sid (BashBackend.reset_session sid bss).2 =
       BashBackend.reset_session sid bss) ∧
    (((PerlBackend.reset_session sid now pss).1 = "Session reset successfully" ∨
      (PerlBackend.reset_session sid now pss).1 =
        "Session not found, creating new session") ∧
     PerlBackend.reset_session sid now (PerlBackend.reset_session sid now pss).2 =
       PerlBackend.reset_session sid now pss) ∧
    (SessionManager.findSession db sid = none →
      PyBackend.reset_namespace sid now db =
        (.error ⟨404, "Session not found"⟩, db)) ∧
    (∀ s, SessionManager.findSession db sid = some s →
      ∃ db', PyBackend.reset_namespace sid now db =
               (.ok "Namespace reset successfully", db') ∧
             PyBackend.reset_namespace sid now db' =
               (.ok "Namespace reset successfully", db')) := by
  refine ⟨⟨rfl, ?_⟩, ?_, ?_, ?_⟩
  · show ("Session reset successfully",
          (bss.filter (fun kv => kv.1 != sid)).filter (fun kv => kv.1 != sid)) =
         ("Session reset successfully", bss.filter (fun kv => kv.1 != sid))
    rw [filter_idem]
  · cases hl : PerlBackend.lookup pss sid with
    | none => exact ⟨Or.inr (by simp [PerlBackend.reset_session, hl]),
                     by simp [PerlBackend.reset_session, hl]⟩
    | some s =>
        have hl₂ : PerlBackend.lookup (pss.filter (fun kv => kv.1 != sid)) sid = none :=
          perl_lookup_filter_self pss sid
        have hfst : PerlBackend.reset_session sid now pss =
            ("Session reset successfully",
             pss.filter (fun kv => kv.1 != sid) ++
               [(sid, PerlBackend.freshSession now)]) := by
          simp [PerlBackend.reset_session, hl, PerlBackend.get_or_create_session, hl₂]
        refine ⟨Or.inl (by rw [hfst]), ?_⟩
        rw [hfst]
        have hl₃ : PerlBackend.lookup
            (pss.filter (fun kv => kv.1 != sid) ++ [(sid, PerlBackend.freshSession now)])
            sid = some (PerlBackend.freshSession now) :=
          perl_lookup_append_single _ sid _ hl₂
        have hfilter : (pss.filter (fun kv => kv.1 != sid) ++
            [(sid, PerlBackend.freshSession now)]).filter (fun kv => kv.1 != sid) =
            pss.filter (fun kv => kv.1 != sid) := by
          rw [List.filter_append, filter_idem]
          simp
        simp [PerlBackend.reset_session, hl₃, PerlBackend.get_or_create_session,
              hfilter, hl₂]
  · intro hnone
    simp [PyBackend.reset_namespace, SessionManager.clear_session_environment, hnone]
  · intro s hs
    refine ⟨SessionManager.updateSession db sid (fun t =>
              { t with environment_data := none
                       environment_language := none
                       environment_updated := none
                       last_accessed := now }), ?_, ?_⟩
    · simp [PyBackend.reset_namespace, SessionManager.clear_session_environment, hs]
    · have hfind := findSession_updateSession db sid
        (fun t => { t with environment_data := none
                           environment_language := none
                           environment_updated := none
                           last_accessed := now }) (fun t => rfl)
      rw [hs] at hfind
      have hcomp := updateSession_comp db sid
        (fun t => { t with environment_data := none
                           environment_language := none
                           environment_updated := none
                           last_accessed := now })
        (fun t => { t with environment_data := none
                           environment_language := none
                           environment_updated := none
                           last_accessed := now }) (fun t => rfl)
      simp [PyBackend.reset_namespace, SessionManager.clear_session_environment,
            hfind, hcomp]

/-- Witness: bash reset succeeds on the empty table, and python reset on
the existing session of `db1` succeeds and is idempotent. -/
theorem reset_contract_witness :
    (BashBackend.reset_session "s1" []).1 = "Session reset successfully" ∧
    ∃ db', PyBackend.reset_namespace "s1" 7 db1 =
             (.ok "Namespace reset successfully", db') ∧
           PyBackend.reset_namespace "s1" 7 db' =
             (.ok "Namespace reset successfully", db') := by
  have h := reset_contract "s1" 7 [] [] db1
  exact ⟨h.1.1, h.2.2.2 session1 rfl⟩

/-- C8 counterexample: on the perl backend a subprocess that exits with
code 1 and writes nothing to stderr yields an error field equal to the
empty string — the raw stderr — not a synthesized message naming the exit
code, contradicting the claim for command-execution backends generally. -/
theorem perl_synthesized_error_counterexample :
    (PerlBackend.execute_code "sess" "exit 1" 0
        (.completed { stdout := "", stderr := "", returncode := 1 }) []).1 =
      .ok { output := "", error := some "" } ∧
    ("" : String) ≠ "Command exited with code 1" := by
  exact ⟨rfl, by decide⟩

/-- C8 amended: only the bash backend synthesizes the exit-code message: a
non-zero exit with empty stderr yields the error "Command exited with code
N"; the perl backend instead returns the raw stderr as the error field
whenever the exit code is non-zero, so with no diagnostic text its error
is the empty string. -/
theorem nonzero_exit_error_field (code sid : String) (now : Timestamp)
    (r : BashBackend.ProcResult) (ss : PerlBackend.Sessions)
    (hcode : isBlank code = false) (hrc : r.returncode ≠ 0) :
    (r.stderr = "" →
      BashBackend.execute_code code (.completed r) =
        .ok { output := r.stdout,
              error := some ("Command exited with code " ++ toString r.returncode) }) ∧
    (PerlBackend.execute_code sid code now (.completed r) ss).1 =
      .ok { output := r.stdout, error := some r.stderr } := by
  constructor
  · intro hstderr
    simp [BashBackend.execute_code, hcode, hrc, hstderr]
  · simp [PerlBackend.execute_code, hcode, hrc]

/-- Witness: a concrete silent non-zero exit on the bash backend produces
the synthesized message, and the same process result on the perl backend
produces the empty-string error. -/
theorem nonzero_exit_error_field_witness :
    BashBackend.execute_code "false" (.completed
        { stdout := "partial", stderr := "", returncode := 2 }) =
      .ok { output := "partial",
            error := some ("Command exited with code " ++ toString (2 : Int)) } ∧
    (PerlBackend.execute_code "sess" "false" 0 (.completed
        { stdout := "partial", stderr := "", returncode := 2 }) []).1 =
      .ok { output := "partial", error := some "" } := by
  have h := nonzero_exit_error_field "false" "sess" 0
    { stdout := "partial", stderr := "", returncode := 2 } [] (by decide) (by decide)
  exact ⟨h.1 rfl, h.2⟩

end WebRepl
